import Mathlib

/-!
Verification of the SitePulse performance-signal acquisition and
aggregation pipeline (`src/audit_engine/lighthouse_api.py` and
`src/audit_engine/performance_analyzer.py`) against its specification.

Numbers are modelled as rationals.  Python `round(x, n)` uses
round-half-to-even, modelled by `pythonRoundTo`.
-/

namespace SitePulse

/-- Qualitative rating of a Core Web Vital, as produced by the
`_get_*_rating` methods (the strings "good", "needs-improvement", "poor"). -/
inductive Rating where
  | good
  | needsImprovement
  | poor
deriving DecidableEq, Repr

/-- Round-half-to-even on a rational, the semantics of Python `round(q)`. -/
def roundHalfEven (q : ℚ) : ℤ :=
  if q - q.floor < 1/2 then q.floor
  else if 1/2 < q - q.floor then q.floor + 1
  else if q.floor % 2 = 0 then q.floor else q.floor + 1

theorem ratFloor_eq_intFloor (q : ℚ) : q.floor = ⌊q⌋ := by
  rw [Rat.floor_def' q, Rat.floor_def]

/-- Python `round(q, d)`: round-half-to-even at `d` decimal digits. -/
def pythonRoundTo (d : ℕ) (q : ℚ) : ℚ :=
  (roundHalfEven (q * (10 : ℚ) ^ d) : ℚ) / (10 : ℚ) ^ d

/-- Embedding of `PerformanceAnalyzer._get_lcp_rating` (performance_analyzer.py:560-566,
identical to lighthouse_api.py:555-561). -/
def get_lcp_rating (value_ms : ℚ) : Rating :=
  if value_ms ≤ 2500 then .good
  else if value_ms ≤ 4000 then .needsImprovement
  else .poor

/-- Embedding of `PerformanceAnalyzer._get_fid_rating` (performance_analyzer.py:568-574). -/
def get_fid_rating (value_ms : ℚ) : Rating :=
  if value_ms ≤ 100 then .good
  else if value_ms ≤ 300 then .needsImprovement
  else .poor

/-- Embedding of `PerformanceAnalyzer._get_cls_rating` (performance_analyzer.py:576-582). -/
def get_cls_rating (value : ℚ) : Rating :=
  if value ≤ 1/10 then .good
  else if value ≤ 1/4 then .needsImprovement
  else .poor

/-- Embedding of `PerformanceAnalyzer._get_fcp_rating` (performance_analyzer.py:584-590). -/
def get_fcp_rating (value_ms : ℚ) : Rating :=
  if value_ms ≤ 1800 then .good
  else if value_ms ≤ 3000 then .needsImprovement
  else .poor

/-- The `metrics` dict of `PerformanceAnalyzer.analyze`. -/
structure Metrics where
  load_time : ℚ
  page_size : ℚ
  requests_count : ℚ
deriving DecidableEq, Repr

/-- Embedding of `PerformanceAnalyzer._calculate_local_performance_score`
(performance_analyzer.py:400-438).  The three rating arguments are the
ratings found (or not found) under `details["core_web_vitals"]`; a missing
entry (`none`) never matches `"poor"`. -/
def calculate_local_performance_score (m : Metrics)
    (lcpR fidR clsR : Option Rating) : ℚ :=
  let s : ℚ := 100
  let s := s - (if m.load_time > 5000 then 40
    else if m.load_time > 3000 then 25
    else if m.load_time > 1000 then 15 else 0)
  let s := s - (if m.page_size > 5000000 then 30
    else if m.page_size > 2000000 then 20
    else if m.page_size > 1000000 then 10 else 0)
  let s := s - (if m.requests_count > 100 then 20
    else if m.requests_count > 50 then 10 else 0)
  let s := s - (if lcpR = some .poor then 15 else 0)
  let s := s - (if fidR = some .poor then 15 else 0)
  let s := s - (if clsR = some .poor then 10 else 0)
  max 0 (min 100 s)

/-- What `_calculate_performance_score` reads of `lighthouse_results`:
its `error` field and, when the `categories` dict has a truthy
`performance` entry, that entry's `score`. -/
structure AdoptedSignalView where
  error : Option String
  perfScore : Option ℚ
deriving DecidableEq, Repr

/-- Embedding of `PerformanceAnalyzer._calculate_performance_score`
(performance_analyzer.py:389-398). -/
def calculate_performance_score (sig : AdoptedSignalView) (m : Metrics)
    (lcpR fidR clsR : Option Rating) : ℚ :=
  match sig.error, sig.perfScore with
  | none, some ext =>
      pythonRoundTo 1 (ext * (7/10) +
        calculate_local_performance_score m lcpR fidR clsR * (3/10))
  | _, _ => calculate_local_performance_score m lcpR fidR clsR

theorem roundHalfEven_intCast (n : ℤ) : roundHalfEven (n : ℚ) = n := by
  simp [roundHalfEven, ratFloor_eq_intFloor]

theorem pythonRoundTo_eq_self {d : ℕ} {q : ℚ} {n : ℤ}
    (h : q * (10 : ℚ) ^ d = (n : ℚ)) : pythonRoundTo d q = q := by
  rw [pythonRoundTo, h, roundHalfEven_intCast, ← h]
  rw [mul_div_assoc, div_self (by positivity), mul_one]

theorem roundHalfEven_nonneg {q : ℚ} (h : 0 ≤ q) : 0 ≤ roundHalfEven q := by
  have hf : (0 : ℤ) ≤ ⌊q⌋ := Int.floor_nonneg.mpr h
  unfold roundHalfEven
  rw [ratFloor_eq_intFloor]
  split_ifs <;> omega

theorem roundHalfEven_le {q : ℚ} {B : ℤ} (h : q ≤ (B : ℚ)) :
    roundHalfEven q ≤ B := by
  have hfl : (⌊q⌋ : ℚ) ≤ q := Int.floor_le q
  have hfB : ⌊q⌋ ≤ B := by exact_mod_cast hfl.trans h
  unfold roundHalfEven
  rw [ratFloor_eq_intFloor]
  split_ifs with h1 h2 h3
  · exact hfB
  · have hlt : (⌊q⌋ : ℚ) < q := by push_neg at h1; linarith
    have hfltB : ⌊q⌋ < B := by exact_mod_cast hlt.trans_le h
    omega
  · exact hfB
  · have hlt : (⌊q⌋ : ℚ) < q := by push_neg at h1; linarith
    have hfltB : ⌊q⌋ < B := by exact_mod_cast hlt.trans_le h
    omega

theorem pythonRoundTo_one_bounds {q : ℚ} (h0 : 0 ≤ q) (h1 : q ≤ 100) :
    0 ≤ pythonRoundTo 1 q ∧ pythonRoundTo 1 q ≤ 100 := by
  have hten : (0 : ℚ) < (10 : ℚ) ^ (1 : ℕ) := by norm_num
  have hlo : 0 ≤ roundHalfEven (q * (10 : ℚ) ^ (1 : ℕ)) :=
    roundHalfEven_nonneg (by positivity)
  have hhi : roundHalfEven (q * (10 : ℚ) ^ (1 : ℕ)) ≤ 1000 :=
    roundHalfEven_le (B := 1000) (by push_cast; nlinarith)
  constructor
  · rw [pythonRoundTo]
    apply div_nonneg _ (le_of_lt hten)
    exact_mod_cast hlo
  · rw [pythonRoundTo, div_le_iff₀ hten]
    calc ((roundHalfEven (q * (10:ℚ) ^ (1:ℕ)) : ℚ)) ≤ 1000 := by exact_mod_cast hhi
    _ = 100 * (10 : ℚ) ^ (1 : ℕ) := by norm_num

/-! ## Vitals estimation and the LighthouseAPI fallback chain -/

/-- Reading of one Core Web Vital as produced by the estimators:
the rounded `value` and the `rating` computed from the unrounded estimate. -/
structure VitalReading where
  value : ℚ
  rating : Rating
deriving DecidableEq, Repr

/-- The four Core Web Vitals produced by the local estimators. -/
structure LocalVitals where
  lcp : VitalReading
  fid : VitalReading
  cls : VitalReading
  fcp : VitalReading
deriving DecidableEq, Repr

/-- Embedding of `LighthouseAPI._estimate_core_web_vitals_local`
(lighthouse_api.py:239-283): the base-formula tier, used when no
resource count is available. -/
def estimate_core_web_vitals_local (load_time content_size : ℚ) : LocalVitals :=
  let estimated_lcp := load_time + content_size / 100000 * 50
  let estimated_fid := min (load_time * (1/10)) 200
  let estimated_cls := min (content_size / 10000000) (3/10)
  let estimated_fcp := load_time * (7/10)
  { lcp := ⟨pythonRoundTo 2 estimated_lcp, get_lcp_rating estimated_lcp⟩
    fid := ⟨pythonRoundTo 2 estimated_fid, get_fid_rating estimated_fid⟩
    cls := ⟨pythonRoundTo 3 estimated_cls, get_cls_rating estimated_cls⟩
    fcp := ⟨pythonRoundTo 2 estimated_fcp, get_fcp_rating estimated_fcp⟩ }

/-- Embedding of
`PerformanceAnalyzer._enhance_core_web_vitals_with_local_data`
(performance_analyzer.py:349-387): the enhanced-formula tier, used when a
resource count is known. -/
def enhance_core_web_vitals_with_local_data
    (load_time total_size resource_count : ℚ) : LocalVitals :=
  let estimated_lcp := load_time + total_size / 100000 * 30 + resource_count * 10
  let estimated_fid := min (load_time * (15/100) + resource_count * 5) 250
  let estimated_cls := min (total_size / 10000000 + resource_count * (1/1000)) (3/10)
  let estimated_fcp := load_time * (6/10)
  { lcp := ⟨pythonRoundTo 2 estimated_lcp, get_lcp_rating estimated_lcp⟩
    fid := ⟨pythonRoundTo 2 estimated_fid, get_fid_rating estimated_fid⟩
    cls := ⟨pythonRoundTo 3 estimated_cls, get_cls_rating estimated_cls⟩
    fcp := ⟨pythonRoundTo 2 estimated_fcp, get_fcp_rating estimated_fcp⟩ }

/-- Embedding of `LighthouseAPI._calculate_local_performance_score`
(lighthouse_api.py:217-237): the score of the local-as-source Signal,
clamped to [0, 100]. -/
def lh_calculate_local_performance_score (load_time content_size : ℚ) : ℚ :=
  let s : ℚ := 100
  let s := s - (if load_time > 5000 then 40
    else if load_time > 3000 then 25
    else if load_time > 1000 then 15 else 0)
  let s := s - (if content_size > 5000000 then 30
    else if content_size > 2000000 then 20
    else if content_size > 1000000 then 10 else 0)
  max 0 (min 100 s)

/-- View of the ratings stored under the adopted Signal's
`core_web_vitals` entries that downstream scoring reads; a metric missing
from the dict is `none`. -/
structure VitalsRatings where
  lcpR : Option Rating
  fidR : Option Rating
  clsR : Option Rating
deriving DecidableEq, Repr

/-- Data extracted by `LighthouseAPI._parse_lighthouse_response` from a
well-formed payload: the `performance` category score (if the payload has
that category) and the core-web-vitals ratings dict (`none` when the
`core_web_vitals` dict comes out empty). -/
structure ParsedSignal where
  perfScore : Option ℚ
  vitals : Option VitalsRatings
deriving DecidableEq, Repr

/-- Outcome of one HTTP attempt against a scoring endpoint: either the
request raised (network error, timeout, bad JSON), or it returned a status
code with a payload; `none` payload models a 200 body without a
`lighthouseResult` object (malformed response). -/
inductive Response where
  | exc (msg : String)
  | http (code : ℕ) (payload : Option ParsedSignal)
deriving DecidableEq, Repr

/-- Result of one source attempt: `error` set on any failure, the parsed
signal on clean success. -/
structure SignalResult where
  error : Option String
  signal : Option ParsedSignal
deriving DecidableEq, Repr

/-- Embedding of `LighthouseAPI._try_lighthouse_api`
(lighthouse_api.py:79-107): 200 with a well-formed body parses cleanly,
429 is recorded as rate-limited, any other status or a raised exception
becomes a Signal with `error` set. -/
def try_lighthouse_api : Response → SignalResult
  | .exc msg => ⟨some ("API exception: " ++ msg), none⟩
  | .http code payload =>
    if code = 200 then
      match payload with
      | none => ⟨some "No lighthouse result in API response", none⟩
      | some p => ⟨none, some p⟩
    else if code = 429 then ⟨some "Rate limit exceeded", none⟩
    else ⟨some ("API request failed: " ++ toString code), none⟩

/-- Embedding of `LighthouseAPI._try_fallback_api`
(lighthouse_api.py:109-132): like the primary attempt but with no
dedicated 429 branch. -/
def try_fallback_api : Response → SignalResult
  | .exc msg => ⟨some ("Fallback API exception: " ++ msg), none⟩
  | .http code payload =>
    if code = 200 then
      match payload with
      | none => ⟨some "No lighthouse result in API response", none⟩
      | some p => ⟨none, some p⟩
    else ⟨some ("Fallback API failed: " ++ toString code), none⟩

/-- Outcome of the direct page fetch done by
`LighthouseAPI._perform_local_analysis`: the fetch either raises or
yields a measured load time (ms) and content size (bytes). -/
inductive LocalFetch where
  | exc (msg : String)
  | ok (load_time content_size : ℚ)
deriving DecidableEq, Repr

/-- Embedding of `LighthouseAPI._perform_local_analysis`
(lighthouse_api.py:173-215): on a successful fetch it synthesizes a clean
Signal whose performance score is the clamped local heuristic and whose
vitals are the base-tier estimates; on failure it returns a Signal with
`error` set and empty categories and vitals. -/
def perform_local_analysis : LocalFetch → SignalResult
  | .exc msg => ⟨some ("Local analysis failed: " ++ msg), none⟩
  | .ok load_time content_size =>
    let v := estimate_core_web_vitals_local load_time content_size
    ⟨none, some ⟨some (lh_calculate_local_performance_score load_time content_size),
      some ⟨some v.lcp.rating, some v.fid.rating, some v.cls.rating⟩⟩⟩

/-- The primary endpoint URL, `LighthouseAPI.__init__`
(lighthouse_api.py:17). -/
def base_url : String := "https://www.googleapis.com/pagespeedonline/v5/runPagespeed"

/-- The fallback endpoint URLs, `LighthouseAPI.__init__`
(lighthouse_api.py:24-27). -/
def fallback_api_urls : List String :=
  ["https://pagespeed.web.dev/api/v5/runPagespeed",
   "https://www.googleapis.com/pagespeedonline/v5/runPagespeed"]

/-- Environment of one `analyze_url` run: what each external endpoint
would answer if attempted, and what the direct local fetch would yield. -/
structure ApiEnv where
  primary : Response
  fallback1 : Response
  fallback2 : Response
  localFetch : LocalFetch
deriving DecidableEq, Repr

/-- Result of `LighthouseAPI.analyze_url`: the adopted Signal's fields
plus the bookkeeping fields, together with the trace of external attempts
actually performed (chain position and endpoint URL, in order). -/
structure AnalyzeUrlResult where
  error : Option String
  perfScore : Option ℚ
  vitals : Option VitalsRatings
  data_source : String
  fallback_used : Bool
  attempts : List (ℕ × String)
deriving DecidableEq, Repr

/-- Projection of an adopted parsed signal onto the result fields. -/
def adoptedFields : Option ParsedSignal → Option ℚ × Option VitalsRatings
  | none => (none, none)
  | some p => (p.perfScore, p.vitals)

/-- Embedding of `LighthouseAPI.analyze_url` (lighthouse_api.py:29-77):
try the primary endpoint, then the two fallback endpoints in order,
adopting the first clean signal; when all three fail, adopt the
local-as-source Signal with `fallback_used = true`. -/
def analyze_url (env : ApiEnv) : AnalyzeUrlResult :=
  let r0 := try_lighthouse_api env.primary
  if r0.error = none then
    { error := none, perfScore := (adoptedFields r0.signal).1,
      vitals := (adoptedFields r0.signal).2, data_source := "lighthouse_api",
      fallback_used := false, attempts := [(0, base_url)] }
  else
    let r1 := try_fallback_api env.fallback1
    if r1.error = none then
      { error := none, perfScore := (adoptedFields r1.signal).1,
        vitals := (adoptedFields r1.signal).2, data_source := "fallback_api_1",
        fallback_used := true,
        attempts := [(0, base_url), (1, "https://pagespeed.web.dev/api/v5/runPagespeed")] }
    else
      let r2 := try_fallback_api env.fallback2
      if r2.error = none then
        { error := none, perfScore := (adoptedFields r2.signal).1,
          vitals := (adoptedFields r2.signal).2, data_source := "fallback_api_2",
          fallback_used := true,
          attempts := [(0, base_url),
            (1, "https://pagespeed.web.dev/api/v5/runPagespeed"),
            (2, "https://www.googleapis.com/pagespeedonline/v5/runPagespeed")] }
      else
        let loc := perform_local_analysis env.localFetch
        { error := loc.error, perfScore := (adoptedFields loc.signal).1,
          vitals := (adoptedFields loc.signal).2, data_source := "local_analysis",
          fallback_used := true,
          attempts := [(0, base_url),
            (1, "https://pagespeed.web.dev/api/v5/runPagespeed"),
            (2, "https://www.googleapis.com/pagespeedonline/v5/runPagespeed")] }

/-- A `Response` is a structurally valid, error-free answer exactly when
it is a 200 with a well-formed payload. -/
def isCleanOk : Response → Bool
  | .exc _ => false
  | .http code payload => code == 200 && payload.isSome

/-! ## PerformanceAnalyzer.analyze -/

/-- Outcome of the direct fetch of `PerformanceAnalyzer._analyze_page_load`
(performance_analyzer.py:101-162): on an exception the function records an
issue and leaves `total_time = 0`; otherwise it yields the measured total
time in ms. -/
inductive LoadFetch where
  | exc (msg : String)
  | ok (total_time : ℚ)
deriving DecidableEq, Repr

/-- The `total_time` that `_analyze_page_load` reports. -/
def analyze_page_load_time : LoadFetch → ℚ
  | .exc _ => 0
  | .ok t => t

/-- Outcome of `PerformanceAnalyzer._analyze_resources`
(performance_analyzer.py:164-229): `ok` carries the accumulated
`total_size` and `total_requests` of the traversal; an exception on the
initial fetch leaves both totals at 0. -/
inductive ResFetch where
  | exc (msg : String)
  | ok (total_size total_requests : ℚ)
deriving DecidableEq, Repr

/-- The `(total_size, total_requests)` pair `_analyze_resources` reports. -/
def analyze_resources_totals : ResFetch → ℚ × ℚ
  | .exc _ => (0, 0)
  | .ok sz rc => (sz, rc)

/-- Environment of one `PerformanceAnalyzer.analyze` run. -/
structure AnalyzeEnv where
  api : ApiEnv
  load : LoadFetch
  res : ResFetch
deriving DecidableEq, Repr

/-- Result of `PerformanceAnalyzer.analyze` restricted to the fields the
specification talks about. -/
structure AnalyzeResult where
  score : ℚ
  metrics : Metrics
  data_sources : List String
  vitals : Option VitalsRatings
deriving DecidableEq, Repr

/-- Embedding of `PerformanceAnalyzer.analyze`
(performance_analyzer.py:18-99): run the external chain via
`analyze_url`, always run the local page-load and resource measurements,
substitute estimator vitals when the adopted signal erred or carries no
vitals, then compute the composite score. -/
def analyze (env : AnalyzeEnv) : AnalyzeResult :=
  let lres := analyze_url env.api
  let load_time := analyze_page_load_time env.load
  let sz_rc := analyze_resources_totals env.res
  let m : Metrics := ⟨load_time, sz_rc.1, sz_rc.2⟩
  let finalVitals : Option VitalsRatings :=
    if lres.error ≠ none ∨ lres.vitals = none then
      let ev := enhance_core_web_vitals_with_local_data load_time sz_rc.1 sz_rc.2
      some ⟨some ev.lcp.rating, some ev.fid.rating, some ev.cls.rating⟩
    else lres.vitals
  let ds := ["lighthouse_" ++ lres.data_source, "local_page_load",
      "local_resource_analysis"] ++
    (if lres.error ≠ none ∨ lres.vitals = none
      then ["enhanced_core_web_vitals"] else [])
  let vr := finalVitals.getD ⟨none, none, none⟩
  { score := calculate_performance_score ⟨lres.error, lres.perfScore⟩ m
      vr.lcpR vr.fidR vr.clsR
    metrics := m
    data_sources := ds
    vitals := finalVitals }

/-! ## Threshold configuration (config.py) -/

/-- One per-metric threshold pair of the configuration. -/
structure CwvThresholdPair where
  good : ℚ
  needs_improvement : ℚ
deriving DecidableEq, Repr

/-- The per-metric threshold table assembled by
`AuditConfig.get_core_web_vitals_thresholds`. -/
structure CwvThresholds where
  lcp : CwvThresholdPair
  fid : CwvThresholdPair
  cls : CwvThresholdPair
  fcp : CwvThresholdPair
deriving DecidableEq, Repr

/-- The Core-Web-Vitals threshold fields of `AuditConfig.__init__`
(config.py:31-41), each settable through its environment variable. -/
structure AuditConfig where
  lcp_good_threshold : ℚ
  lcp_needs_improvement_threshold : ℚ
  fid_good_threshold : ℚ
  fid_needs_improvement_threshold : ℚ
  cls_good_threshold : ℚ
  cls_needs_improvement_threshold : ℚ
  fcp_good_threshold : ℚ
  fcp_needs_improvement_threshold : ℚ
deriving DecidableEq, Repr

/-- The default values of the threshold fields (config.py:31-41, no
environment overrides). -/
def default_audit_config : AuditConfig :=
  { lcp_good_threshold := 2500, lcp_needs_improvement_threshold := 4000
    fid_good_threshold := 100, fid_needs_improvement_threshold := 300
    cls_good_threshold := 1/10, cls_needs_improvement_threshold := 1/4
    fcp_good_threshold := 1800, fcp_needs_improvement_threshold := 3000 }

/-- Embedding of `AuditConfig.get_core_web_vitals_thresholds`
(config.py:79-98). -/
def get_core_web_vitals_thresholds (c : AuditConfig) : CwvThresholds :=
  { lcp := ⟨c.lcp_good_threshold, c.lcp_needs_improvement_threshold⟩
    fid := ⟨c.fid_good_threshold, c.fid_needs_improvement_threshold⟩
    cls := ⟨c.cls_good_threshold, c.cls_needs_improvement_threshold⟩
    fcp := ⟨c.fcp_good_threshold, c.fcp_needs_improvement_threshold⟩ }

/-- A configuration in which the LCP cutoffs have been changed (both set
to 0 through their environment variables), giving an active threshold
table different from the default one. -/
def changed_audit_config : AuditConfig :=
  { default_audit_config with
      lcp_good_threshold := 0
      lcp_needs_improvement_threshold := 0 }

/-- Modelled from the spec: the rating function §4.3 requires, a
deterministic function of the value and an injected per-metric threshold
pair, "inclusive upper bound = that rating".  The source rating methods
(`_get_lcp_rating` and friends) take no such parameter; this definition
exists to compare the spec's requirement against them. -/
def rating_with_table (t : CwvThresholdPair) (v : ℚ) : Rating :=
  if v ≤ t.good then .good
  else if v ≤ t.needs_improvement then .needsImprovement
  else .poor

/-- Markers contributed by the local-analysis stages of the pipeline. -/
def local_analysis_markers : List String :=
  ["lighthouse_local_analysis", "local_page_load", "local_resource_analysis",
   "enhanced_core_web_vitals"]

/-! ## Helper lemmas -/

theorem try_lighthouse_api_clean_iff (r : Response) :
    (try_lighthouse_api r).error = none ↔ isCleanOk r = true := by
  cases r with
  | exc msg => simp [try_lighthouse_api, isCleanOk]
  | http code payload =>
    cases payload <;> simp [try_lighthouse_api, isCleanOk] <;>
      split_ifs <;> simp_all

theorem try_fallback_api_clean_iff (r : Response) :
    (try_fallback_api r).error = none ↔ isCleanOk r = true := by
  cases r with
  | exc msg => simp [try_fallback_api, isCleanOk]
  | http code payload =>
    cases payload <;> simp [try_fallback_api, isCleanOk] <;>
      split_ifs <;> simp_all

theorem perform_local_analysis_error (f : LocalFetch) :
    (perform_local_analysis f).error = none ↔ ∃ lt cs, f = .ok lt cs := by
  cases f <;> simp [perform_local_analysis]

theorem calculate_local_performance_score_bounds (m : Metrics)
    (l f c : Option Rating) :
    0 ≤ calculate_local_performance_score m l f c ∧
      calculate_local_performance_score m l f c ≤ 100 := by
  unfold calculate_local_performance_score
  refine ⟨le_max_left _ _, ?_⟩
  exact max_le (by norm_num) (min_le_left _ _)

theorem pythonRoundTo_zero (d : ℕ) : pythonRoundTo d 0 = 0 := by
  have h : (0 : ℚ) * (10 : ℚ) ^ d = ((0 : ℤ) : ℚ) := by norm_num
  rw [pythonRoundTo_eq_self h]

theorem analyze_url_data_source_mem (env : ApiEnv) :
    (analyze_url env).data_source ∈
      ["lighthouse_api", "fallback_api_1", "fallback_api_2",
       "local_analysis"] := by
  simp only [analyze_url]
  split_ifs <;> simp

theorem analyze_url_all_fail_ds (env : ApiEnv)
    (h0 : isCleanOk env.primary = false) (h1 : isCleanOk env.fallback1 = false)
    (h2 : isCleanOk env.fallback2 = false) :
    (analyze_url env).data_source = "local_analysis" := by
  obtain ⟨pr, f1, f2, lf⟩ := env
  simp only at h0 h1 h2
  have hne0 : ¬ (try_lighthouse_api pr).error = none := by
    rw [try_lighthouse_api_clean_iff, h0]; simp
  have hne1 : ¬ (try_fallback_api f1).error = none := by
    rw [try_fallback_api_clean_iff, h1]; simp
  have hne2 : ¬ (try_fallback_api f2).error = none := by
    rw [try_fallback_api_clean_iff, h2]; simp
  unfold analyze_url
  rw [if_neg hne0, if_neg hne1, if_neg hne2]

/-! ## Claims -/

/-- C1: `_calculate_performance_score` returns
`round(external_score * 0.7 + local_score * 0.3, 1)` exactly when the
adopted Signal is error-free and exposes a `performance` category score,
and the bare local score otherwise; in particular external 80 with local
60 (realized at load_time 3500 with a poor LCP rating) yields exactly
74.0. -/
theorem C1_composite_score (sig : AdoptedSignalView) (m : Metrics)
    (l f c : Option Rating) :
    (∀ x : ℚ, sig.error = none → sig.perfScore = some x →
      calculate_performance_score sig m l f c =
        pythonRoundTo 1 (x * (7/10) +
          calculate_local_performance_score m l f c * (3/10))) ∧
    (sig.error ≠ none ∨ sig.perfScore = none →
      calculate_performance_score sig m l f c =
        calculate_local_performance_score m l f c) ∧
    calculate_local_performance_score ⟨3500, 0, 0⟩ (some .poor) none none = 60 ∧
    calculate_performance_score ⟨none, some 80⟩ ⟨3500, 0, 0⟩
      (some .poor) none none = 74 := by
  have hloc : calculate_local_performance_score ⟨3500, 0, 0⟩
      (some .poor) none none = 60 := by
    simp only [calculate_local_performance_score, reduceCtorEq,
      Option.some.injEq, if_false, if_true]
    norm_num [max_def, min_def]
  refine ⟨?_, ?_, hloc, ?_⟩
  · intro x h1 h2
    obtain ⟨e, p⟩ := sig
    simp only at h1 h2
    subst h1; subst h2
    rfl
  · intro h
    obtain ⟨e, p⟩ := sig
    rcases h with h | h
    · cases e with
      | none => simp at h
      | some msg => cases p <;> rfl
    · simp only at h
      subst h
      cases e <;> rfl
  · show calculate_performance_score ⟨none, some 80⟩ ⟨3500, 0, 0⟩
      (some .poor) none none = 74
    have : calculate_performance_score ⟨none, some 80⟩ ⟨3500, 0, 0⟩
        (some .poor) none none =
        pythonRoundTo 1 ((80 : ℚ) * (7/10) +
          calculate_local_performance_score ⟨3500, 0, 0⟩
            (some .poor) none none * (3/10)) := rfl
    rw [this, hloc]
    have h74 : (80 : ℚ) * (7/10) + 60 * (3/10) = 74 := by norm_num
    rw [h74]
    have h : (74 : ℚ) * (10 : ℚ) ^ (1 : ℕ) = ((740 : ℤ) : ℚ) := by norm_num
    rw [pythonRoundTo_eq_self h]

/-- C1 witness: the composite branch evaluated at external 80 and the
concrete metrics giving local 60, and the local branch at an errored
Signal. -/
theorem C1_composite_score_witness :
    calculate_performance_score ⟨none, some 80⟩ ⟨3500, 0, 0⟩
        (some .poor) none none =
      pythonRoundTo 1 ((80 : ℚ) * (7/10) +
        calculate_local_performance_score ⟨3500, 0, 0⟩
          (some .poor) none none * (3/10)) ∧
    calculate_performance_score ⟨some "API exception: boom", some 80⟩
        ⟨3500, 0, 0⟩ (some .poor) none none =
      calculate_local_performance_score ⟨3500, 0, 0⟩ (some .poor) none none :=
  ⟨(C1_composite_score ⟨none, some 80⟩ ⟨3500, 0, 0⟩
      (some .poor) none none).1 80 rfl rfl,
   (C1_composite_score ⟨some "API exception: boom", some 80⟩ ⟨3500, 0, 0⟩
      (some .poor) none none).2.1 (Or.inl (by simp))⟩

/-- C4: the rating boundaries are inclusive on the better side for every
value: LCP good iff value ≤ 2500, needs-improvement iff 2500 < value ≤
4000, else poor, and analogously FID (100/300), CLS (0.10/0.25) and
FCP (1800/3000); in particular 2500 rates good, 2501 and 4000
needs-improvement, 4001 poor. -/
theorem C4_rating_boundaries :
    (∀ v : ℚ, (get_lcp_rating v = .good ↔ v ≤ 2500) ∧
      (get_lcp_rating v = .needsImprovement ↔ 2500 < v ∧ v ≤ 4000) ∧
      (get_lcp_rating v = .poor ↔ 4000 < v)) ∧
    (∀ v : ℚ, (get_fid_rating v = .good ↔ v ≤ 100) ∧
      (get_fid_rating v = .needsImprovement ↔ 100 < v ∧ v ≤ 300) ∧
      (get_fid_rating v = .poor ↔ 300 < v)) ∧
    (∀ v : ℚ, (get_cls_rating v = .good ↔ v ≤ 1/10) ∧
      (get_cls_rating v = .needsImprovement ↔ 1/10 < v ∧ v ≤ 1/4) ∧
      (get_cls_rating v = .poor ↔ 1/4 < v)) ∧
    (∀ v : ℚ, (get_fcp_rating v = .good ↔ v ≤ 1800) ∧
      (get_fcp_rating v = .needsImprovement ↔ 1800 < v ∧ v ≤ 3000) ∧
      (get_fcp_rating v = .poor ↔ 3000 < v)) ∧
    get_lcp_rating 2500 = .good ∧ get_lcp_rating 2501 = .needsImprovement ∧
    get_lcp_rating 4000 = .needsImprovement ∧ get_lcp_rating 4001 = .poor := by
  refine ⟨?_, ?_, ?_, ?_, ?_, ?_, ?_, ?_⟩
  · intro v
    unfold get_lcp_rating
    split_ifs with h1 h2 <;>
      refine ⟨?_, ?_, ?_⟩ <;> simp_all <;> first | linarith | intro h; linarith
  · intro v
    unfold get_fid_rating
    split_ifs with h1 h2 <;>
      refine ⟨?_, ?_, ?_⟩ <;> simp_all <;> first | linarith | intro h; linarith
  · intro v
    unfold get_cls_rating
    split_ifs with h1 h2 <;>
      refine ⟨?_, ?_, ?_⟩ <;> simp_all <;> first | linarith | intro h; linarith
  · intro v
    unfold get_fcp_rating
    split_ifs with h1 h2 <;>
      refine ⟨?_, ?_, ?_⟩ <;> simp_all <;> first | linarith | intro h; linarith
  · norm_num [get_lcp_rating]
  · norm_num [get_lcp_rating]
  · norm_num [get_lcp_rating]
  · norm_num [get_lcp_rating]

/-- C8: the base-tier estimator implements the base formula table
(LCP = load_time + size/100000·50, FID = min(load_time·0.10, 200),
CLS = min(size/10000000, 0.3), FCP = load_time·0.70), the enhanced tier
implements the resource-count formulas, and at load_time 2000 ms and
content_size 1000000 bytes with no resource count the LCP estimate is
2500 rated good and the FCP estimate is 1400 rated good. -/
theorem C8_vitals_estimation :
    (∀ lt cs : ℚ, estimate_core_web_vitals_local lt cs =
      { lcp := ⟨pythonRoundTo 2 (lt + cs / 100000 * 50),
          get_lcp_rating (lt + cs / 100000 * 50)⟩
        fid := ⟨pythonRoundTo 2 (min (lt * (1/10)) 200),
          get_fid_rating (min (lt * (1/10)) 200)⟩
        cls := ⟨pythonRoundTo 3 (min (cs / 10000000) (3/10)),
          get_cls_rating (min (cs / 10000000) (3/10))⟩
        fcp := ⟨pythonRoundTo 2 (lt * (7/10)),
          get_fcp_rating (lt * (7/10))⟩ }) ∧
    (∀ lt cs rc : ℚ, enhance_core_web_vitals_with_local_data lt cs rc =
      { lcp := ⟨pythonRoundTo 2 (lt + cs / 100000 * 30 + rc * 10),
          get_lcp_rating (lt + cs / 100000 * 30 + rc * 10)⟩
        fid := ⟨pythonRoundTo 2 (min (lt * (15/100) + rc * 5) 250),
          get_fid_rating (min (lt * (15/100) + rc * 5) 250)⟩
        cls := ⟨pythonRoundTo 3 (min (cs / 10000000 + rc * (1/1000)) (3/10)),
          get_cls_rating (min (cs / 10000000 + rc * (1/1000)) (3/10))⟩
        fcp := ⟨pythonRoundTo 2 (lt * (6/10)),
          get_fcp_rating (lt * (6/10))⟩ }) ∧
    (estimate_core_web_vitals_local 2000 1000000).lcp = ⟨2500, .good⟩ ∧
    (estimate_core_web_vitals_local 2000 1000000).fcp = ⟨1400, .good⟩ := by
  refine ⟨fun lt cs => rfl, fun lt cs rc => rfl, ?_, ?_⟩
  · have h1 : (2000 : ℚ) + 1000000 / 100000 * 50 = 2500 := by norm_num
    show (⟨pythonRoundTo 2 ((2000 : ℚ) + 1000000 / 100000 * 50),
      get_lcp_rating ((2000 : ℚ) + 1000000 / 100000 * 50)⟩ : VitalReading) = _
    rw [h1, pythonRoundTo_eq_self
      (show (2500 : ℚ) * (10 : ℚ) ^ (2 : ℕ) = ((250000 : ℤ) : ℚ) by norm_num)]
    norm_num [get_lcp_rating]
  · have h2 : (2000 : ℚ) * (7/10) = 1400 := by norm_num
    show (⟨pythonRoundTo 2 ((2000 : ℚ) * (7/10)),
      get_fcp_rating ((2000 : ℚ) * (7/10))⟩ : VitalReading) = _
    rw [h2, pythonRoundTo_eq_self
      (show (1400 : ℚ) * (10 : ℚ) ^ (2 : ℕ) = ((140000 : ℤ) : ℚ) by norm_num)]
    norm_num [get_fcp_rating]

/-- C10: with load_time, total_size and resource_count all 0 (the
degraded all-measurement-failed case), the enhanced estimator returns
value 0 rated good for all four metrics, the local score over those
zeroed metrics and good ratings is 100, and the full pipeline run in
which every external source and every local fetch fails scores exactly
100. -/
theorem C10_degraded_zero_inputs :
    enhance_core_web_vitals_with_local_data 0 0 0 =
      ⟨⟨0, .good⟩, ⟨0, .good⟩, ⟨0, .good⟩, ⟨0, .good⟩⟩ ∧
    calculate_local_performance_score ⟨0, 0, 0⟩
      (some .good) (some .good) (some .good) = 100 ∧
    (analyze ⟨⟨.http 500 none, .http 503 none, .exc "timeout",
        .exc "connection refused"⟩,
      .exc "connection refused", .exc "connection refused"⟩).score = 100 := by
  have hv : enhance_core_web_vitals_with_local_data 0 0 0 =
      ⟨⟨0, .good⟩, ⟨0, .good⟩, ⟨0, .good⟩, ⟨0, .good⟩⟩ := by
    simp only [enhance_core_web_vitals_with_local_data]
    norm_num [min_def, pythonRoundTo_zero, get_lcp_rating, get_fid_rating,
      get_cls_rating, get_fcp_rating]
  have hloc100 : calculate_local_performance_score ⟨0, 0, 0⟩
      (some .good) (some .good) (some .good) = 100 := by
    simp only [calculate_local_performance_score, reduceCtorEq,
      Option.some.injEq, if_false, if_true]
    norm_num [max_def, min_def]
  refine ⟨hv, hloc100, ?_⟩
  have hl : analyze_url ⟨.http 500 none, .http 503 none, .exc "timeout",
      .exc "connection refused"⟩ =
      ⟨some ("Local analysis failed: " ++ "connection refused"), none, none,
        "local_analysis", true,
        [(0, base_url), (1, "https://pagespeed.web.dev/api/v5/runPagespeed"),
         (2, "https://www.googleapis.com/pagespeedonline/v5/runPagespeed")]⟩ := rfl
  simp only [analyze, hl, analyze_page_load_time, analyze_resources_totals]
  simp only [reduceCtorEq, ne_eq, not_false_iff, true_or, if_true, hv,
    Option.getD_some]
  simp only [calculate_performance_score]
  exact hloc100

/-- C2: sources are tried in priority order and the first clean response
is adopted immediately: a clean primary gives `data_source =
"lighthouse_api"` and `fallback_used = false`; a clean fallback at chain
position i > 0 gives `fallback_used = true` and stops the chain; when all
three external attempts fail, the local-as-source Signal is adopted with
`data_source = "local_analysis"` and `fallback_used = true`. -/
theorem C2_fallback_coordination (env : ApiEnv) :
    (∀ p : ParsedSignal, env.primary = .http 200 (some p) →
      analyze_url env = ⟨none, p.perfScore, p.vitals, "lighthouse_api", false,
        [(0, base_url)]⟩) ∧
    (∀ p : ParsedSignal, isCleanOk env.primary = false →
      env.fallback1 = .http 200 (some p) →
      analyze_url env = ⟨none, p.perfScore, p.vitals, "fallback_api_1", true,
        [(0, base_url),
         (1, "https://pagespeed.web.dev/api/v5/runPagespeed")]⟩) ∧
    (∀ p : ParsedSignal, isCleanOk env.primary = false →
      isCleanOk env.fallback1 = false →
      env.fallback2 = .http 200 (some p) →
      analyze_url env = ⟨none, p.perfScore, p.vitals, "fallback_api_2", true,
        [(0, base_url),
         (1, "https://pagespeed.web.dev/api/v5/runPagespeed"),
         (2, "https://www.googleapis.com/pagespeedonline/v5/runPagespeed")]⟩) ∧
    (isCleanOk env.primary = false → isCleanOk env.fallback1 = false →
      isCleanOk env.fallback2 = false →
      (analyze_url env).data_source = "local_analysis" ∧
      (analyze_url env).fallback_used = true ∧
      (analyze_url env).error = (perform_local_analysis env.localFetch).error) := by
  obtain ⟨pr, f1, f2, lf⟩ := env
  refine ⟨?_, ?_, ?_, ?_⟩
  · intro p hp
    simp only at hp
    subst hp
    unfold analyze_url
    rw [if_pos (by simp [try_lighthouse_api])]
    simp [try_lighthouse_api, adoptedFields]
  · intro p h0 hp
    simp only at h0 hp
    subst hp
    have hne : ¬ (try_lighthouse_api pr).error = none := by
      rw [try_lighthouse_api_clean_iff, h0]; simp
    unfold analyze_url
    rw [if_neg hne, if_pos (by simp [try_fallback_api])]
    simp [try_fallback_api, adoptedFields]
  · intro p h0 h1 hp
    simp only at h0 h1 hp
    subst hp
    have hne0 : ¬ (try_lighthouse_api pr).error = none := by
      rw [try_lighthouse_api_clean_iff, h0]; simp
    have hne1 : ¬ (try_fallback_api f1).error = none := by
      rw [try_fallback_api_clean_iff, h1]; simp
    unfold analyze_url
    rw [if_neg hne0, if_neg hne1, if_pos (by simp [try_fallback_api])]
    simp [try_fallback_api, adoptedFields]
  · intro h0 h1 h2
    simp only at h0 h1 h2
    have hne0 : ¬ (try_lighthouse_api pr).error = none := by
      rw [try_lighthouse_api_clean_iff, h0]; simp
    have hne1 : ¬ (try_fallback_api f1).error = none := by
      rw [try_fallback_api_clean_iff, h1]; simp
    have hne2 : ¬ (try_fallback_api f2).error = none := by
      rw [try_fallback_api_clean_iff, h2]; simp
    unfold analyze_url
    rw [if_neg hne0, if_neg hne1, if_neg hne2]
    simp

/-- C2 witness: a clean primary is adopted with no fallback, and an
all-failing chain adopts the local-as-source Signal with
`fallback_used = true`. -/
theorem C2_fallback_coordination_witness :
    analyze_url ⟨.http 200 (some ⟨some 80, none⟩), .exc "x", .exc "x",
        .ok 1000 50000⟩ =
      ⟨none, some 80, none, "lighthouse_api", false, [(0, base_url)]⟩ ∧
    (analyze_url ⟨.http 500 none, .exc "x", .http 429 none,
        .exc "down"⟩).data_source = "local_analysis" ∧
    (analyze_url ⟨.http 500 none, .exc "x", .http 429 none,
        .exc "down"⟩).fallback_used = true :=
  ⟨(C2_fallback_coordination ⟨.http 200 (some ⟨some 80, none⟩), .exc "x",
      .exc "x", .ok 1000 50000⟩).1 ⟨some 80, none⟩ rfl,
   ((C2_fallback_coordination ⟨.http 500 none, .exc "x", .http 429 none,
      .exc "down"⟩).2.2.2 rfl rfl rfl).1,
   ((C2_fallback_coordination ⟨.http 500 none, .exc "x", .http 429 none,
      .exc "down"⟩).2.2.2 rfl rfl rfl).2.1⟩

/-- C5 counterexample: the second configured fallback endpoint URL is the
same URL as the primary endpoint, so in an audit whose first two attempts
fail that source URL is attempted twice — the googleapis endpoint occurs
twice in the attempt trace. -/
theorem C5_counterexample_duplicate_source :
    base_url ∈ fallback_api_urls ∧
    ((analyze_url ⟨.http 500 none, .http 500 none, .http 500 none,
        .exc "x"⟩).attempts.map Prod.snd).count base_url = 2 := by
  constructor
  · exact List.Mem.tail _ (List.Mem.head _)
  · rfl

/-- C5 amended: within one audit each position of the configured source
chain is attempted at most once and in increasing order (never retried in
place, a 429 is recorded as an error Signal and the coordinator moves
on); however the chain's endpoint URLs are not pairwise distinct, so the
same URL can be attempted at two different chain positions. -/
theorem C5_no_position_retried (env : ApiEnv) :
    ((analyze_url env).attempts.map Prod.fst).Chain' (· < ·) ∧
    ((analyze_url env).attempts.map Prod.fst).Nodup ∧
    ((analyze_url env).attempts.map Prod.fst = [0] ∨
      (analyze_url env).attempts.map Prod.fst = [0, 1] ∨
      (analyze_url env).attempts.map Prod.fst = [0, 1, 2]) ∧
    (∀ pl, try_lighthouse_api (.http 429 pl) =
      ⟨some "Rate limit exceeded", none⟩) := by
  obtain ⟨pr, f1, f2, lf⟩ := env
  refine ⟨?_, ?_, ?_, fun pl => rfl⟩ <;>
    · simp only [analyze_url]
      split_ifs <;> simp

/-- C6: a source attempt never escapes its own boundary — the attempt
result carries `error = none` exactly on a 200 with a well-formed body,
and every failure mode (raised exception, HTTP 429, other non-200
status, malformed payload) is converted into a Signal with a specific
`error` string — and `analyze` still yields the structured result with
zeroed load time when the local measurement itself fails. -/
theorem C6_error_containment :
    (∀ r : Response, (try_lighthouse_api r).error = none ↔ isCleanOk r = true) ∧
    (∀ r : Response, (try_fallback_api r).error = none ↔ isCleanOk r = true) ∧
    (∀ msg, (try_lighthouse_api (.exc msg)).error =
      some ("API exception: " ++ msg)) ∧
    (∀ pl, (try_lighthouse_api (.http 429 pl)).error =
      some "Rate limit exceeded") ∧
    (try_lighthouse_api (.http 200 none)).error =
      some "No lighthouse result in API response" ∧
    (∀ code pl, code ≠ 200 → code ≠ 429 →
      (try_lighthouse_api (.http code pl)).error =
        some ("API request failed: " ++ toString code)) ∧
    (∀ f : LocalFetch, (perform_local_analysis f).error = none ↔
      ∃ lt cs, f = .ok lt cs) ∧
    (∀ env : AnalyzeEnv, ∀ msg, env.load = .exc msg →
      (analyze env).metrics.load_time = 0 ∧
      "local_page_load" ∈ (analyze env).data_sources ∧
      "local_resource_analysis" ∈ (analyze env).data_sources) := by
  refine ⟨try_lighthouse_api_clean_iff, try_fallback_api_clean_iff,
    fun msg => rfl, fun pl => rfl, rfl, ?_, perform_local_analysis_error, ?_⟩
  · intro code pl h200 h429
    simp [try_lighthouse_api, h200, h429]
  · intro env msg hload
    obtain ⟨api, load, res⟩ := env
    simp only at hload
    subst hload
    refine ⟨rfl, ?_, ?_⟩ <;>
      · simp only [analyze]
        split_ifs <;> simp

/-- C6 witness: a 500 response is converted into an error Signal, and a
pipeline whose local page-load fetch raises still returns the structured
result with zeroed load time and both local stages recorded. -/
theorem C6_error_containment_witness :
    (try_lighthouse_api (.http 500 none)).error =
      some ("API request failed: " ++ toString 500) ∧
    (analyze ⟨⟨.http 500 none, .exc "x", .exc "x", .exc "x"⟩,
        .exc "timeout", .ok 2048 12⟩).metrics.load_time = 0 ∧
    "local_page_load" ∈ (analyze ⟨⟨.http 500 none, .exc "x", .exc "x",
        .exc "x"⟩, .exc "timeout", .ok 2048 12⟩).data_sources :=
  ⟨C6_error_containment.2.2.2.2.2.1 500 none (by norm_num) (by norm_num),
   (C6_error_containment.2.2.2.2.2.2.2 ⟨⟨.http 500 none, .exc "x", .exc "x",
      .exc "x"⟩, .exc "timeout", .ok 2048 12⟩ "timeout" rfl).1,
   (C6_error_containment.2.2.2.2.2.2.2 ⟨⟨.http 500 none, .exc "x", .exc "x",
      .exc "x"⟩, .exc "timeout", .ok 2048 12⟩ "timeout" rfl).2.1⟩

/-- C7: `data_sources` records, in order, the adopted source's marker
first, `"local_page_load"` second, and `"enhanced_core_web_vitals"` last
exactly when the adopted Signal erred or carries no vitals; when every
external source fails the list ends with a local-analysis marker. -/
theorem C7_data_sources_order (env : AnalyzeEnv) :
    ((analyze env).data_sources.head? =
      some ("lighthouse_" ++ (analyze_url env.api).data_source)) ∧
    ((analyze env).data_sources[1]? = some "local_page_load") ∧
    ("enhanced_core_web_vitals" ∈ (analyze env).data_sources ↔
      ((analyze_url env.api).error ≠ none ∨
        (analyze_url env.api).vitals = none)) ∧
    ("enhanced_core_web_vitals" ∈ (analyze env).data_sources →
      (analyze env).data_sources.getLast? = some "enhanced_core_web_vitals") ∧
    (isCleanOk env.api.primary = false → isCleanOk env.api.fallback1 = false →
      isCleanOk env.api.fallback2 = false →
      (analyze_url env.api).data_source = "local_analysis" ∧
      ∃ s, (analyze env).data_sources.getLast? = some s ∧
        s ∈ local_analysis_markers) := by
  have hds : (analyze env).data_sources =
      ["lighthouse_" ++ (analyze_url env.api).data_source, "local_page_load",
        "local_resource_analysis"] ++
      (if (analyze_url env.api).error ≠ none ∨ (analyze_url env.api).vitals = none
        then ["enhanced_core_web_vitals"] else []) := rfl
  by_cases hc : (analyze_url env.api).error ≠ none ∨
      (analyze_url env.api).vitals = none
  · have hds4 : (analyze env).data_sources =
        ["lighthouse_" ++ (analyze_url env.api).data_source, "local_page_load",
          "local_resource_analysis", "enhanced_core_web_vitals"] := by
      rw [hds, if_pos hc]
      rfl
    refine ⟨by rw [hds4]; rfl, by rw [hds4]; rfl, by rw [hds4]; simp [hc],
      fun _ => by rw [hds4]; rfl, fun h0 h1 h2 => ?_⟩
    exact ⟨analyze_url_all_fail_ds env.api h0 h1 h2,
      "enhanced_core_web_vitals", by rw [hds4]; rfl, by decide⟩
  · have hds3 : (analyze env).data_sources =
        ["lighthouse_" ++ (analyze_url env.api).data_source, "local_page_load",
          "local_resource_analysis"] := by
      rw [hds, if_neg hc]
      rfl
    have hnot : ¬ "enhanced_core_web_vitals" ∈ (analyze env).data_sources := by
      rw [hds3]
      intro hmem
      have hm := analyze_url_data_source_mem env.api
      simp only [List.mem_cons, List.not_mem_nil, or_false] at hmem hm
      rcases hmem with h | h | h
      · rcases hm with h4 | h4 | h4 | h4 <;>
          · rw [h4] at h
            exact absurd h (by decide)
      · exact absurd h (by decide)
      · exact absurd h (by decide)
    refine ⟨by rw [hds3]; rfl, by rw [hds3]; rfl,
      ⟨fun hmem => absurd hmem hnot, fun hcc => absurd hcc hc⟩,
      fun hmem => absurd hmem hnot, fun h0 h1 h2 => ?_⟩
    exact ⟨analyze_url_all_fail_ds env.api h0 h1 h2,
      "local_resource_analysis", by rw [hds3]; rfl, by decide⟩

/-- C7 witness: in a run whose primary succeeds but carries no vitals the
list is the external marker, then `"local_page_load"`, then the local
stages with the estimator marker last; and in an all-external-fail run
the list ends with a local-analysis marker. -/
theorem C7_data_sources_order_witness :
    (analyze ⟨⟨.http 200 (some ⟨some 90, none⟩), .exc "x", .exc "x",
        .ok 1000 50000⟩, .ok 1200, .ok 80000 7⟩).data_sources.head? =
      some ("lighthouse_" ++ (analyze_url ⟨.http 200 (some ⟨some 90, none⟩),
        .exc "x", .exc "x", .ok 1000 50000⟩).data_source) ∧
    ("enhanced_core_web_vitals" ∈ (analyze ⟨⟨.http 200 (some ⟨some 90, none⟩),
        .exc "x", .exc "x", .ok 1000 50000⟩,
        .ok 1200, .ok 80000 7⟩).data_sources ↔
      ((analyze_url ⟨.http 200 (some ⟨some 90, none⟩), .exc "x", .exc "x",
        .ok 1000 50000⟩).error ≠ none ∨
       (analyze_url ⟨.http 200 (some ⟨some 90, none⟩), .exc "x", .exc "x",
        .ok 1000 50000⟩).vitals = none)) ∧
    ∃ s, (analyze ⟨⟨.http 500 none, .http 502 none, .exc "x", .exc "y"⟩,
        .exc "y", .exc "y"⟩).data_sources.getLast? = some s ∧
      s ∈ local_analysis_markers :=
  ⟨(C7_data_sources_order ⟨⟨.http 200 (some ⟨some 90, none⟩), .exc "x",
      .exc "x", .ok 1000 50000⟩, .ok 1200, .ok 80000 7⟩).1,
   (C7_data_sources_order ⟨⟨.http 200 (some ⟨some 90, none⟩), .exc "x",
      .exc "x", .ok 1000 50000⟩, .ok 1200, .ok 80000 7⟩).2.2.1,
   ((C7_data_sources_order ⟨⟨.http 500 none, .http 502 none, .exc "x",
      .exc "y"⟩, .exc "y", .exc "y"⟩).2.2.2.2 rfl rfl rfl).2⟩

/-- C3: the local heuristic score is always within [0, 100], and the
composite score is within [0, 100] whenever the adopted Signal's
performance score (when exposed) is itself within [0, 100] — in
particular in the all-sources-failed case, where the local-only branch
applies unconditionally. -/
theorem C3_score_in_range :
    (∀ (m : Metrics) (l f c : Option Rating),
      0 ≤ calculate_local_performance_score m l f c ∧
      calculate_local_performance_score m l f c ≤ 100) ∧
    (∀ (sig : AdoptedSignalView) (m : Metrics) (l f c : Option Rating),
      (∀ x : ℚ, sig.perfScore = some x → 0 ≤ x ∧ x ≤ 100) →
      0 ≤ calculate_performance_score sig m l f c ∧
      calculate_performance_score sig m l f c ≤ 100) := by
  refine ⟨fun m l f c => calculate_local_performance_score_bounds m l f c, ?_⟩
  intro sig m l f c hext
  obtain ⟨e, p⟩ := sig
  obtain ⟨hl0, hl1⟩ := calculate_local_performance_score_bounds m l f c
  cases e with
  | some msg =>
    cases p <;> exact ⟨hl0, hl1⟩
  | none =>
    cases p with
    | none => exact ⟨hl0, hl1⟩
    | some x =>
      obtain ⟨hx0, hx1⟩ := hext x rfl
      have hq0 : 0 ≤ x * (7/10) +
          calculate_local_performance_score m l f c * (3/10) := by positivity
      have hq1 : x * (7/10) +
          calculate_local_performance_score m l f c * (3/10) ≤ 100 := by
        nlinarith
      exact pythonRoundTo_one_bounds hq0 hq1

/-- C3 witness: the bounds evaluated at an external score of 80 with the
concrete local metrics, and at an errored Signal. -/
theorem C3_score_in_range_witness :
    (0 ≤ calculate_performance_score ⟨none, some 80⟩ ⟨3500, 0, 0⟩
        (some .poor) none none ∧
      calculate_performance_score ⟨none, some 80⟩ ⟨3500, 0, 0⟩
        (some .poor) none none ≤ 100) ∧
    (0 ≤ calculate_performance_score ⟨some "Local analysis failed: x", none⟩
        ⟨99999, 99999999, 500⟩ (some .poor) (some .poor) (some .poor) ∧
      calculate_performance_score ⟨some "Local analysis failed: x", none⟩
        ⟨99999, 99999999, 500⟩ (some .poor) (some .poor) (some .poor) ≤ 100) :=
  ⟨C3_score_in_range.2 ⟨none, some 80⟩ ⟨3500, 0, 0⟩ (some .poor) none none
    (fun x hx => by
      rw [show (⟨none, some 80⟩ : AdoptedSignalView).perfScore = some 80
        from rfl, Option.some.injEq] at hx
      subst hx
      norm_num),
   C3_score_in_range.2 ⟨some "Local analysis failed: x", none⟩
    ⟨99999, 99999999, 500⟩ (some .poor) (some .poor) (some .poor)
    (fun x hx => by
      rw [show (⟨some "Local analysis failed: x", none⟩ :
        AdoptedSignalView).perfScore = none from rfl] at hx
      exact absurd hx (by simp))⟩

/-- C9 counterexample: the configuration's threshold table is changeable
(here the LCP cutoffs are set to 0, a table different from the default),
the spec's table-driven rating of an LCP of 2500 under that active table
is poor, yet the estimator's rating of that same value is good — the
source rating functions consult hard-coded cutoffs, not the injected
table, so changing the injected table does not change the ratings. -/
theorem C9_counterexample_thresholds_not_injected :
    get_core_web_vitals_thresholds changed_audit_config ≠
      get_core_web_vitals_thresholds default_audit_config ∧
    rating_with_table
      (get_core_web_vitals_thresholds changed_audit_config).lcp 2500 =
        .poor ∧
    (estimate_core_web_vitals_local 2000 1000000).lcp.rating = .good ∧
    get_lcp_rating 2500 = .good := by
  refine ⟨?_, ?_, ?_, ?_⟩
  · intro h
    have := congrArg (fun t => t.lcp.good) h
    simp only [get_core_web_vitals_thresholds, default_audit_config,
      changed_audit_config] at this
    norm_num at this
  · norm_num [rating_with_table, get_core_web_vitals_thresholds,
      changed_audit_config, default_audit_config]
  · show get_lcp_rating ((2000 : ℚ) + 1000000 / 100000 * 50) = .good
    norm_num [get_lcp_rating]
  · norm_num [get_lcp_rating]

/-- C9 amended: each rating is a deterministic function of the value
alone, agreeing everywhere with the spec's table-driven rating applied to
the fixed default threshold table (LCP 2500/4000, FID 100/300, CLS
0.10/0.25, FCP 1800/3000); the configuration object exposes a threshold
table but the estimator takes no such parameter, so the active table
cannot influence the ratings. -/
theorem C9_ratings_fixed_default_table :
    (∀ v : ℚ, get_lcp_rating v = rating_with_table
      (get_core_web_vitals_thresholds default_audit_config).lcp v) ∧
    (∀ v : ℚ, get_fid_rating v = rating_with_table
      (get_core_web_vitals_thresholds default_audit_config).fid v) ∧
    (∀ v : ℚ, get_cls_rating v = rating_with_table
      (get_core_web_vitals_thresholds default_audit_config).cls v) ∧
    (∀ v : ℚ, get_fcp_rating v = rating_with_table
      (get_core_web_vitals_thresholds default_audit_config).fcp v) ∧
    (∀ lt cs : ℚ, (estimate_core_web_vitals_local lt cs).lcp.rating =
      get_lcp_rating (lt + cs / 100000 * 50)) :=
  ⟨fun v => rfl, fun v => rfl, fun v => rfl, fun v => rfl, fun lt cs => rfl⟩

end SitePulse
